import Mathlib

/-!
Verification of the Health_GenData repository: a shallow embedding of the
health-data generator (`health_data_generator.py`) and the analyzer
(`data_analyzer.py`) over exact rationals and integers, with theorems
settling the specification's claims about categorization, statistics,
generation invariants and the CSV round trip.
-/

namespace HealthGen

/-! ### Python rounding

Python's built-in `round(x, n)` rounds half to even (banker's rounding).
We model it over ℚ. -/

/-- Round a rational to the nearest integer, halves to even, as Python's
built-in `round` does. -/
def roundHalfEven (q : ℚ) : ℤ :=
  let n : ℤ := ⌊q⌋
  let frac : ℚ := q - n
  if frac < 1/2 then n
  else if 1/2 < frac then n + 1
  else if 2 ∣ n then n else n + 1

/-- Python `round(q, d)` where `p = 10^d`. -/
def pyRoundTo (q : ℚ) (p : ℕ) : ℚ := (roundHalfEven (q * p) : ℚ) / p

/-- Python `round(q, 1)`. -/
def pyRound1 (q : ℚ) : ℚ := pyRoundTo q 10

/-- Python `round(q, 2)`. -/
def pyRound2 (q : ℚ) : ℚ := pyRoundTo q 100

/-! ### Loaded record model

`data_analyzer.load_from_csv` reads the shared CSV written by the
generator.  Every row of that CSV carries every column of the header, so a
loaded record always has every key; `int` columns are coerced with
`int(value) if value else 0`, `float` columns with
`float(value) if value else 0.0`, and the rest stay text.  `Row` is that
flattened, coerced record. The medical-history cells stay raw text
(`List Char`) exactly as loaded; `analyze_medical_history` parses them. -/

structure Row where
  name : String
  age : ℤ
  gender : String
  height : ℚ
  weight : ℚ
  blood_type : String
  phone : List Char
  email : String
  address : String
  emergency_contact : List Char
  id_number : List Char
  bmi : ℚ
  blood_pressure_systolic : ℤ
  blood_pressure_diastolic : ℤ
  heart_rate : ℤ
  body_temperature : ℚ
  blood_sugar : ℚ
  cholesterol : ℚ
  created_date : String
  allergies : List Char
  chronic_diseases : List Char
  medications : List Char
  surgeries : List Char
  family_history : List Char
deriving DecidableEq

/-! ### Age groups (`analyze_age_groups`, data_analyzer.py lines 92-114) -/

inductive AgeGroup where
  | g18to30
  | g31to45
  | g46to60
  | g61to75
  | g76plus
deriving DecidableEq, Repr

/-- Bucket of one age under the if/elif chain of `analyze_age_groups`. -/
def ageGroup (age : ℤ) : AgeGroup :=
  if 18 ≤ age ∧ age ≤ 30 then .g18to30
  else if 31 ≤ age ∧ age ≤ 45 then .g31to45
  else if 46 ≤ age ∧ age ≤ 60 then .g46to60
  else if 61 ≤ age ∧ age ≤ 75 then .g61to75
  else .g76plus

/-- The five-bucket age histogram dict built by `analyze_age_groups`. -/
structure AgeCounts where
  g18to30 : ℕ
  g31to45 : ℕ
  g46to60 : ℕ
  g61to75 : ℕ
  g76plus : ℕ
deriving DecidableEq, Repr

/-- Embedding of `HealthDataAnalyzer.analyze_age_groups`: one increment per
age, in the bucket selected by the if/elif chain. -/
def analyze_age_groups (ages : List ℤ) : AgeCounts :=
  { g18to30 := ages.countP fun a => decide (ageGroup a = .g18to30)
    g31to45 := ages.countP fun a => decide (ageGroup a = .g31to45)
    g46to60 := ages.countP fun a => decide (ageGroup a = .g46to60)
    g61to75 := ages.countP fun a => decide (ageGroup a = .g61to75)
    g76plus := ages.countP fun a => decide (ageGroup a = .g76plus) }

/-- Sum of the five buckets of an `AgeCounts`. -/
def AgeCounts.total (c : AgeCounts) : ℕ :=
  c.g18to30 + c.g31to45 + c.g46to60 + c.g61to75 + c.g76plus

/-! ### BMI categories (`analyze_bmi_categories`, data_analyzer.py lines 149-168) -/

inductive BmiCat where
  | under
  | normal
  | over
  | obese
deriving DecidableEq, Repr

/-- Bucket of one BMI value under the if/elif chain of
`analyze_bmi_categories`. -/
def bmiCategory (bmi : ℚ) : BmiCat :=
  if bmi < 37/2 then .under
  else if 37/2 ≤ bmi ∧ bmi < 25 then .normal
  else if 25 ≤ bmi ∧ bmi < 30 then .over
  else .obese

/-- The four-bucket BMI dict built by `analyze_bmi_categories`. -/
structure BmiCounts where
  under : ℕ
  normal : ℕ
  over : ℕ
  obese : ℕ
deriving DecidableEq, Repr

/-- Embedding of `HealthDataAnalyzer.analyze_bmi_categories`. -/
def analyze_bmi_categories (bmi_values : List ℚ) : BmiCounts :=
  { under := bmi_values.countP fun b => decide (bmiCategory b = .under)
    normal := bmi_values.countP fun b => decide (bmiCategory b = .normal)
    over := bmi_values.countP fun b => decide (bmiCategory b = .over)
    obese := bmi_values.countP fun b => decide (bmiCategory b = .obese) }

/-- Sum of the four buckets of a `BmiCounts`. -/
def BmiCounts.total (c : BmiCounts) : ℕ := c.under + c.normal + c.over + c.obese

/-! ### Blood-pressure categories (`analyze_bp_categories`, data_analyzer.py lines 170-189) -/

inductive BpCat where
  | normal
  | elevated
  | stage1
  | stage2
deriving DecidableEq, Repr

/-- Bucket of one (systolic, diastolic) pair under the if/elif chain of
`analyze_bp_categories`. -/
def bpCategory (systolic diastolic : ℤ) : BpCat :=
  if systolic < 120 ∧ diastolic < 80 then .normal
  else if 120 ≤ systolic ∧ systolic < 130 ∧ diastolic < 80 then .elevated
  else if (130 ≤ systolic ∧ systolic < 140) ∨ (80 ≤ diastolic ∧ diastolic < 90) then .stage1
  else .stage2

/-- The four-bucket blood-pressure dict built by `analyze_bp_categories`. -/
structure BpCounts where
  normal : ℕ
  elevated : ℕ
  stage1 : ℕ
  stage2 : ℕ
deriving DecidableEq, Repr

/-- Embedding of `HealthDataAnalyzer.analyze_bp_categories`. -/
def analyze_bp_categories (bp_data : List (ℤ × ℤ)) : BpCounts :=
  { normal := bp_data.countP fun p => decide (bpCategory p.1 p.2 = .normal)
    elevated := bp_data.countP fun p => decide (bpCategory p.1 p.2 = .elevated)
    stage1 := bp_data.countP fun p => decide (bpCategory p.1 p.2 = .stage1)
    stage2 := bp_data.countP fun p => decide (bpCategory p.1 p.2 = .stage2) }

/-- Sum of the four buckets of a `BpCounts`. -/
def BpCounts.total (c : BpCounts) : ℕ := c.normal + c.elevated + c.stage1 + c.stage2

/-! ### Field extraction performed by `analyze_demographics` and
`analyze_health_metrics` (data_analyzer.py lines 72, 138, 142-144).
Loaded CSV rows always carry every key, so the key-presence guards are
vacuous; the truthiness guard `row['bmi']` excludes zero values. -/

/-- Ages list of `analyze_demographics` (line 72). -/
def agesOf (rows : List Row) : List ℤ := rows.map Row.age

/-- BMI list of `analyze_health_metrics` (line 138): present and truthy
(non-zero) values only. -/
def bmiValuesOf (rows : List Row) : List ℚ :=
  (rows.map Row.bmi).filter fun v => decide (v ≠ 0)

/-- Blood-pressure pair list of `analyze_health_metrics` (lines 142-144). -/
def bpDataOf (rows : List Row) : List (ℤ × ℤ) :=
  rows.map fun r => (r.blood_pressure_systolic, r.blood_pressure_diastolic)

/-! ### Concrete rows used as witnesses and counterexamples. -/

/-- Concrete loaded row with a zero BMI field, as `load_from_csv` produces
for an empty bmi cell (`float(value) if value else 0.0`). -/
def zeroBmiRow : Row :=
  { name := "王小明"
    age := 40
    gender := "男"
    height := 175
    weight := 70
    blood_type := "A"
    phone := ['0', '9', '1', '2', '3', '4', '5', '6', '7', '8']
    email := "user1234@gmail.com"
    address := "台北市信義區"
    emergency_contact := ['0', '9', '8', '7', '6', '5', '4', '3', '2', '1']
    id_number := ['A', '1', '2', '3', '4', '5', '6', '7', '8', '9']
    bmi := 0
    blood_pressure_systolic := 125
    blood_pressure_diastolic := 70
    heart_rate := 80
    body_temperature := 366/10
    blood_sugar := 95
    cholesterol := 180
    created_date := "2024-01-01 00:00:00"
    allergies := "花粉; 塵蟎".data
    chronic_diseases := "".data
    medications := "維生素".data
    surgeries := "".data
    family_history := "高血壓".data }

/-- Concrete loaded row with a non-zero BMI field. -/
def sampleRow : Row :=
  { zeroBmiRow with bmi := 2286/100, blood_pressure_systolic := 135, blood_pressure_diastolic := 95 }

/-! ### Generator value pools (`HealthDataGenerator._init_data_sources`) -/

/-- Chinese surnames pool (`self.surnames`). -/
def surnames : List String :=
  ["趙", "錢", "孫", "李", "週", "吳", "鄭", "王", "馮", "陳", "褚", "衛",
   "蔣", "沈", "韓", "楊", "朱", "秦", "尤", "許", "何", "呂", "施", "張",
   "孔", "曹", "嚴", "華", "金", "魏", "陶", "姜", "戚", "謝", "鄒", "喻",
   "柏", "水", "竇", "章", "雲", "蘇", "潘", "葛", "奚", "範", "彭", "郎",
   "魯", "韋", "昌", "馬", "苗", "鳳", "花", "方", "俞", "任", "袁", "柳",
   "酆", "鮑", "史", "唐", "費", "廉", "岑", "薛", "雷", "賀", "倪", "湯"]

/-- Chinese given-name fragments pool (`self.given_names`). -/
def given_names : List String :=
  ["家", "珈", "貝", "楠", "希", "辛", "潁", "英", "敬", "莫", "群", "海",
   "渲", "兒", "與", "釣", "怡", "艾", "雪", "安", "愛", "書", "牛", "新",
   "婷", "鐺", "妙", "晴", "葶", "歡", "羊", "娜", "瀟", "奧", "末", "城",
   "圖", "星", "天", "敏", "銘", "君", "豪", "偉", "然", "軒", "萱", "涵",
   "翔", "廷", "恩", "辰", "睿", "宇", "妍", "彤", "妤", "語", "綺", "俠",
   "飛", "丁", "寧", "點", "彬", "傑", "美", "叮", "熊", "苗", "東", "奇",
   "寶", "可", "智", "逸", "健", "筆", "七", "裕", "侃", "福", "嵐", "夕",
   "博", "榮", "哲", "佛", "阿", "皓", "輝", "淼", "琦", "朗", "昂", "月",
   "嚕", "賽", "紅", "餃", "岸", "拉", "斐", "保", "濛", "雅", "志", "浩",
   "子", "梓", "詩", "宥", "承", "品", "宸", "柏", "詠", "羽", "禹", "芯", "思"]

/-- Blood-type pool (`self.blood_types`). -/
def blood_types : List String := ["A", "B", "AB", "O"]

/-- Gender pool (`self.genders`). -/
def genders : List String := ["男", "女"]

/-- Allergy pool (`self.allergies`). -/
def allergies_pool : List String :=
  ["花粉", "塵蟎", "海鮮", "堅果", "牛奶", "雞蛋", "大豆", "小麥",
   "藥物過敏", "動物毛髮", "化學物質", "無已知過敏"]

/-- Chronic-disease pool (`self.chronic_diseases`). -/
def chronic_diseases_pool : List String :=
  ["高血壓", "糖尿病", "高血脂", "心臟病", "氣喘", "關節炎",
   "甲狀腺疾病", "腎臟病", "肝病", "無慢性疾病"]

/-- Medication pool (`self.medications`). -/
def medications_pool : List String :=
  ["降血壓藥", "降血糖藥", "降血脂藥", "心臟藥", "氣喘藥",
   "止痛藥", "維生素", "鈣片", "魚油", "無服用藥物"]

/-- Surgery pool (`self.surgeries`). -/
def surgeries_pool : List String :=
  ["闌尾切除", "膽囊切除", "白內障手術", "骨折手術", "心臟手術",
   "腫瘤切除", "疝氣修補", "無手術史"]

/-- Family-history pool (`self.family_history`). -/
def family_history_pool : List String :=
  ["高血壓", "糖尿病", "心臟病", "癌症", "中風", "腎臟病",
   "精神疾病", "遺傳性疾病", "無家族病史"]

/-- Taiwan address pool (`self.addresses`). -/
def addresses : List String :=
  ["台北市信義區", "台北市大安區", "台北市中山區", "台北市松山區",
   "新北市板橋區", "新北市新莊區", "新北市中和區", "新北市永和區",
   "桃園市桃園區", "桃園市中壢區", "台中市西屯區", "台中市北屯區",
   "台南市東區", "台南市北區", "高雄市左營區", "高雄市三民區"]

/-- Email domain pool (local list of `generate_email`). -/
def email_domains : List String :=
  ["gmail.com", "yahoo.com.tw", "hotmail.com", "outlook.com"]

/-- Letters drawn from in `generate_id_number`. -/
def id_letters : List Char :=
  ['A', 'B', 'C', 'D', 'E', 'F', 'G', 'H', 'I', 'J', 'K', 'L', 'M',
   'N', 'O', 'P', 'Q', 'R', 'S', 'T', 'U', 'V', 'W', 'X', 'Y', 'Z']

/-! ### Generator model (`health_data_generator.py`)

Randomness is passed in explicitly: each `random.choice(lst)` becomes an
in-range index `Fin lst.length`, each `random.randint(a, b)` an offset
`Fin (b - a + 1)` added to `a`, and each `random.uniform(a, b)` draw an
input rational (its range constrains only the distribution, which no claim
depends on). -/

/-- Model of `random.choice(l)`: pick at a supplied in-range index. -/
def pyChoice {α : Type} (l : List α) (i : Fin l.length) : α := l.get i

/-- Randomness consumed by `generate_phone`: 8 draws of `randint(0, 9)`. -/
structure PhoneRand where
  digits : Fin 8 → Fin 10

/-- Embedding of `HealthDataGenerator.generate_phone`: the fixed prefix
"09" (sole element of `prefixes`) followed by 8 random digits. -/
def generate_phone (r : PhoneRand) : List Char :=
  '0' :: '9' :: List.ofFn fun i => Nat.digitChar (r.digits i)

/-- Randomness consumed by `generate_id_number`. -/
structure IdRand where
  letter : Fin id_letters.length
  genderDigit : Fin 2
  digits : Fin 7 → Fin 10

/-- Embedding of `HealthDataGenerator.generate_id_number`: 1 random
letter, then `random.choice([1, 2])`, then 7 random digits. -/
def generate_id_number (r : IdRand) : List Char :=
  pyChoice id_letters r.letter ::
    Nat.digitChar (1 + (r.genderDigit : ℕ)) ::
      List.ofFn fun i => Nat.digitChar (r.digits i)

/-- Embedding of `HealthDataGenerator.calculate_bmi`:
`round(weight / (height/100)**2, 2)`. -/
def calculate_bmi (height weight : ℚ) : ℚ :=
  pyRound2 (weight / (height / 100) ^ 2)

/-- The `PersonalInfo` dataclass of the generator. -/
structure PersonalInfo where
  name : String
  age : ℕ
  gender : String
  height : ℚ
  weight : ℚ
  blood_type : String
  phone : List Char
  email : String
  address : String
  emergency_contact : List Char
  id_number : List Char

/-- Randomness consumed by `generate_personal_info` (and the helpers it
calls). `height_u`/`weight_u` are the `random.uniform` draws, whose
gender-dependent ranges constrain only the distribution. -/
structure PersonRand where
  surname : Fin surnames.length
  name_len : Fin 2
  given1 : Fin given_names.length
  given2 : Fin given_names.length
  age_off : Fin 63
  gender : Fin genders.length
  height_u : ℚ
  weight_u : ℚ
  blood : Fin blood_types.length
  phone : PhoneRand
  email_num : Fin 9000
  email_domain : Fin email_domains.length
  addr : Fin addresses.length
  emergency : PhoneRand
  ident : IdRand

/-- Embedding of `HealthDataGenerator.generate_name`: one surname plus 1
or 2 given-name fragments (`random.choices` with replacement). -/
def generate_name (r : PersonRand) : String :=
  let surname := pyChoice surnames r.surname
  let name_length := pyChoice [1, 2] r.name_len
  let given := String.join
    (([pyChoice given_names r.given1, pyChoice given_names r.given2]).take name_length)
  surname ++ given

/-- Embedding of `HealthDataGenerator.generate_email`:
`user` + `randint(1000, 9999)` + `@` + random domain. -/
def generate_email (r : PersonRand) : String :=
  "user" ++ toString (1000 + (r.email_num : ℕ)) ++ "@" ++
    pyChoice email_domains r.email_domain

/-- Embedding of `HealthDataGenerator.generate_personal_info`:
`age = randint(18, 80)`, gender/blood type drawn from their pools,
height/weight drawn uniformly (gender-dependent range) then rounded to 1
decimal, plus generated phone, email, address, emergency contact and id
number. -/
def generate_personal_info (r : PersonRand) : PersonalInfo :=
  { name := generate_name r
    age := 18 + (r.age_off : ℕ)
    gender := pyChoice genders r.gender
    height := pyRound1 r.height_u
    weight := pyRound1 r.weight_u
    blood_type := pyChoice blood_types r.blood
    phone := generate_phone r.phone
    email := generate_email r
    address := pyChoice addresses r.addr
    emergency_contact := generate_phone r.emergency
    id_number := generate_id_number r.ident }

/-- The `HealthMetrics` dataclass of the generator. -/
structure HealthMetrics where
  bmi : ℚ
  blood_pressure_systolic : ℕ
  blood_pressure_diastolic : ℕ
  heart_rate : ℕ
  body_temperature : ℚ
  blood_sugar : ℚ
  cholesterol : ℚ
  created_date : String

/-- Randomness consumed by `generate_health_metrics`. -/
structure MetricsRand where
  sys : Fin 31
  dia : Fin 21
  heart : Fin 41
  temp_u : ℚ
  sugar_u : ℚ
  chol_u : ℚ
  created : String

/-- Embedding of `HealthDataGenerator.generate_health_metrics`: BMI
derived from the owning person's height and weight by `calculate_bmi`;
blood pressure `randint(110,140)`/`randint(70,90)`, heart rate
`randint(60,100)`; temperature rounded to 1 decimal; blood sugar and
cholesterol scaled by `1 + (age - 30) * 0.01` then rounded to 1 decimal. -/
def generate_health_metrics (person : PersonalInfo) (r : MetricsRand) : HealthMetrics :=
  let bmi := calculate_bmi person.height person.weight
  let age_factor : ℚ := 1 + ((person.age : ℚ) - 30) * (1/100)
  { bmi := bmi
    blood_pressure_systolic := 110 + (r.sys : ℕ)
    blood_pressure_diastolic := 70 + (r.dia : ℕ)
    heart_rate := 60 + (r.heart : ℕ)
    body_temperature := pyRound1 r.temp_u
    blood_sugar := pyRound1 (r.sugar_u * age_factor)
    cholesterol := pyRound1 (r.chol_u * age_factor)
    created_date := r.created }

/-- The `MedicalHistory` dataclass of the generator. -/
structure MedicalHistory where
  allergies : List String
  chronic_diseases : List String
  medications : List String
  surgeries : List String
  family_history : List String

/-- Randomness consumed by `generate_medical_history`: the outcome of
each `random.sample(pool, randint(0, k))` call, i.e. the five sampled
sublists themselves. -/
structure MedicalRand where
  allergies : List String
  chronic_diseases : List String
  medications : List String
  surgeries : List String
  family_history : List String

/-- Wellformedness of a `MedicalRand`: what `random.sample(pool, k)`
guarantees for each field — distinct elements of the pool, at most the
per-field maximum count. -/
def MedicalRand.Wf (r : MedicalRand) : Prop :=
  (r.allergies.Nodup ∧ (∀ x ∈ r.allergies, x ∈ allergies_pool) ∧ r.allergies.length ≤ 3) ∧
  (r.chronic_diseases.Nodup ∧ (∀ x ∈ r.chronic_diseases, x ∈ chronic_diseases_pool) ∧ r.chronic_diseases.length ≤ 2) ∧
  (r.medications.Nodup ∧ (∀ x ∈ r.medications, x ∈ medications_pool) ∧ r.medications.length ≤ 3) ∧
  (r.surgeries.Nodup ∧ (∀ x ∈ r.surgeries, x ∈ surgeries_pool) ∧ r.surgeries.length ≤ 2) ∧
  (r.family_history.Nodup ∧ (∀ x ∈ r.family_history, x ∈ family_history_pool) ∧ r.family_history.length ≤ 3)

instance (r : MedicalRand) : Decidable r.Wf := by
  unfold MedicalRand.Wf
  infer_instance

/-- Embedding of `HealthDataGenerator.generate_medical_history`. -/
def generate_medical_history (r : MedicalRand) : MedicalHistory :=
  { allergies := r.allergies
    chronic_diseases := r.chronic_diseases
    medications := r.medications
    surgeries := r.surgeries
    family_history := r.family_history }

/-- The flattened per-person record built in `generate_batch_data`:
`{**asdict(person), **asdict(health), **asdict(medical)}` (the three
dataclasses have disjoint field names, so the merge keeps every field). -/
structure AggregateRecord where
  name : String
  age : ℕ
  gender : String
  height : ℚ
  weight : ℚ
  blood_type : String
  phone : List Char
  email : String
  address : String
  emergency_contact : List Char
  id_number : List Char
  bmi : ℚ
  blood_pressure_systolic : ℕ
  blood_pressure_diastolic : ℕ
  heart_rate : ℕ
  body_temperature : ℚ
  blood_sugar : ℚ
  cholesterol : ℚ
  created_date : String
  allergies : List String
  chronic_diseases : List String
  medications : List String
  surgeries : List String
  family_history : List String

/-- Flattening of one person's three dataclasses into an
`AggregateRecord`. -/
def mergeRecord (p : PersonalInfo) (h : HealthMetrics) (m : MedicalHistory) : AggregateRecord :=
  { name := p.name
    age := p.age
    gender := p.gender
    height := p.height
    weight := p.weight
    blood_type := p.blood_type
    phone := p.phone
    email := p.email
    address := p.address
    emergency_contact := p.emergency_contact
    id_number := p.id_number
    bmi := h.bmi
    blood_pressure_systolic := h.blood_pressure_systolic
    blood_pressure_diastolic := h.blood_pressure_diastolic
    heart_rate := h.heart_rate
    body_temperature := h.body_temperature
    blood_sugar := h.blood_sugar
    cholesterol := h.cholesterol
    created_date := h.created_date
    allergies := m.allergies
    chronic_diseases := m.chronic_diseases
    medications := m.medications
    surgeries := m.surgeries
    family_history := m.family_history }

/-- Randomness consumed for one full record of `generate_batch_data`. -/
structure RecordRand where
  person : PersonRand
  metrics : MetricsRand
  medical : MedicalRand

/-- One iteration of the `generate_batch_data` loop: person, then health
metrics derived from that person, then medical history, flattened. -/
def generate_record (r : RecordRand) : AggregateRecord :=
  let p := generate_personal_info r.person
  mergeRecord p (generate_health_metrics p r.metrics) (generate_medical_history r.medical)

/-- Embedding of `HealthDataGenerator.generate_batch_data` restricted to
its data content: the ordered list of flattened records (file writing is
I/O around this list). -/
def generate_batch_data (rs : List RecordRand) : List AggregateRecord :=
  rs.map generate_record

/-- Concrete randomness for one record, used by witnesses. -/
def sampleRecordRand : RecordRand :=
  { person :=
    { surname := ⟨3, by decide⟩
      name_len := ⟨1, by decide⟩
      given1 := ⟨0, by decide⟩
      given2 := ⟨1, by decide⟩
      age_off := ⟨22, by decide⟩
      gender := ⟨0, by decide⟩
      height_u := 1752/10
      weight_u := 7005/100
      blood := ⟨2, by decide⟩
      phone := ⟨fun _ => ⟨5, by decide⟩⟩
      email_num := ⟨234, by decide⟩
      email_domain := ⟨0, by decide⟩
      addr := ⟨0, by decide⟩
      emergency := ⟨fun _ => ⟨6, by decide⟩⟩
      ident := ⟨⟨0, by decide⟩, ⟨0, by decide⟩, fun _ => ⟨7, by decide⟩⟩ }
    metrics :=
    { sys := ⟨15, by decide⟩
      dia := ⟨10, by decide⟩
      heart := ⟨20, by decide⟩
      temp_u := 368/10
      sugar_u := 95
      chol_u := 180
      created := "2024-01-01 00:00:00" }
    medical :=
    { allergies := ["花粉", "塵蟎"]
      chronic_diseases := []
      medications := ["維生素"]
      surgeries := []
      family_history := ["高血壓"] } }

/-! ### Text cells: the semicolon join of `save_csv_data` and the
split/strip of `analyze_medical_history` (and of `load_from_csv` text
handling), modelled on `List Char`. -/

/-- Whitespace test of Python `str.strip` (the whitespace that can occur
in this data). -/
def pyIsSpace (c : Char) : Bool :=
  c == ' ' || c == '\t' || c == '\n' || c == '\r'

/-- Python `str.strip`: drop whitespace from both ends. -/
def trimChars (s : List Char) : List Char :=
  ((s.dropWhile pyIsSpace).reverse.dropWhile pyIsSpace).reverse

/-- Python `str.split(sep)` for a one-character separator: always returns
at least one (possibly empty) chunk. -/
def splitOnChar (sep : Char) (s : List Char) : List (List Char) :=
  s.foldr (fun c r =>
    match r with
    | [] => [[c]]
    | h :: t => if c = sep then [] :: h :: t else (c :: h) :: t) [[]]

/-- Python `'; '.join(items)` (`save_csv_data` line 349; the empty list
serializes to the empty string). -/
def joinSemi : List (List Char) → List Char
  | [] => []
  | [x] => x
  | x :: xs => x ++ ';' :: ' ' :: joinSemi xs

/-- Parsing of one list-valued cell in `analyze_medical_history` (lines
201, 211, 221): `[a.strip() for a in value.split(';') if a.strip()]`. -/
def parseListCell (s : List Char) : List (List Char) :=
  ((splitOnChar ';' s).map trimChars).filter fun x => decide (x ≠ [])

/-! ### Statistics helpers (Python `statistics` module over exact ℚ) -/

/-- Python `statistics.mean`. -/
def listMean (l : List ℚ) : ℚ := l.sum / l.length

/-- Python `min` over a list (0 on the empty list, on which the code never
calls it). -/
def listMin : List ℚ → ℚ
  | [] => 0
  | x :: xs => xs.foldl min x

/-- Python `max` over a list (0 on the empty list, on which the code never
calls it). -/
def listMax : List ℚ → ℚ
  | [] => 0
  | x :: xs => xs.foldl max x

/-- Python `statistics.median`: middle element of the sorted list, or the
mean of the two middle elements for even length. -/
def listMedian (l : List ℚ) : ℚ :=
  let s := l.mergeSort fun a b => decide (a ≤ b)
  let n := l.length
  if n % 2 = 1 then s.getD (n / 2) 0
  else (s.getD (n / 2 - 1) 0 + s.getD (n / 2) 0) / 2

/-- Sample variance: the square of Python `statistics.stdev`, which is
irrational in general; its square is the exact quantity we track, and it
is zero exactly when the reported stdev is zero. -/
def sampleVariance (l : List ℚ) : ℚ :=
  (l.map fun x => (x - listMean l) ^ 2).sum / ((l.length : ℚ) - 1)

/-- Python `statistics.stdev` raises `StatisticsError` on fewer than two
data points; modelled on the squared value. -/
def pyStdevSq (l : List ℚ) : Except String ℚ :=
  if l.length < 2 then .error "stdev requires at least two data points"
  else .ok (sampleVariance l)

/-! ### Health-metric statistics (`analyze_health_metrics`, data_analyzer.py
lines 116-147) -/

/-- The per-metric statistics dict of `analyze_health_metrics`
(mean/median/min/max rounded to 2 decimals). The stdev entry is tracked
by its square `stdevSq` (see `sampleVariance`): the code stores
`round(statistics.stdev(values), 2) if len(values) > 1 else 0`, and
`stdevSq` is that value's square with the same `len > 1` guard. -/
structure MetricStats where
  mean : ℚ
  median : ℚ
  vmin : ℚ
  vmax : ℚ
  stdevSq : ℚ
deriving DecidableEq

/-- Statistics over one metric's included value list; `none` when the
list is empty (the code then omits the metric's dict entry). -/
def metricStats (values : List ℚ) : Option MetricStats :=
  if values.isEmpty then none
  else some
    { mean := pyRound2 (listMean values)
      median := pyRound2 (listMedian values)
      vmin := pyRound2 (listMin values)
      vmax := pyRound2 (listMax values)
      stdevSq := if 1 < values.length then sampleVariance values else 0 }

/-- The values included for one metric (line 127): field present (always,
for loaded rows) and truthy, i.e. non-zero. -/
def metricValues (rows : List Row) (f : Row → ℚ) : List ℚ :=
  (rows.map f).filter fun v => decide (v ≠ 0)

/-- One iteration of the per-metric loop of `analyze_health_metrics`. -/
def analyzeOneMetric (rows : List Row) (f : Row → ℚ) : Option MetricStats :=
  metricStats (metricValues rows f)

/-- The full `analyze_health_metrics` result for a non-empty record list:
stats for each of the 7 named metrics plus BMI and blood-pressure bucket
counts. -/
structure HealthMetricsAnalysis where
  bmi : Option MetricStats
  blood_pressure_systolic : Option MetricStats
  blood_pressure_diastolic : Option MetricStats
  heart_rate : Option MetricStats
  body_temperature : Option MetricStats
  blood_sugar : Option MetricStats
  cholesterol : Option MetricStats
  bmi_categories : BmiCounts
  blood_pressure_categories : BpCounts

/-- Body of `analyze_health_metrics` past its empty-data guard. -/
def healthMetricsOf (rows : List Row) : HealthMetricsAnalysis :=
  { bmi := analyzeOneMetric rows Row.bmi
    blood_pressure_systolic := analyzeOneMetric rows fun r => (r.blood_pressure_systolic : ℚ)
    blood_pressure_diastolic := analyzeOneMetric rows fun r => (r.blood_pressure_diastolic : ℚ)
    heart_rate := analyzeOneMetric rows fun r => (r.heart_rate : ℚ)
    body_temperature := analyzeOneMetric rows Row.body_temperature
    blood_sugar := analyzeOneMetric rows Row.blood_sugar
    cholesterol := analyzeOneMetric rows Row.cholesterol
    bmi_categories := analyze_bmi_categories (bmiValuesOf rows)
    blood_pressure_categories := analyze_bp_categories (bpDataOf rows) }

/-- Embedding of `HealthDataAnalyzer.analyze_health_metrics`: empty dict
(`none`) on empty data. -/
def analyze_health_metrics (rows : List Row) : Option HealthMetricsAnalysis :=
  if rows.isEmpty then none else some (healthMetricsOf rows)

/-! ### Demographics (`analyze_demographics`, data_analyzer.py lines 67-90) -/

/-- Python `collections.Counter` as an association list. -/
def counter {α : Type} [DecidableEq α] (l : List α) : List (α × ℕ) :=
  l.dedup.map fun a => (a, l.count a)

/-- Python `min` over an integer list (0 on the empty list). -/
def intMin : List ℤ → ℤ
  | [] => 0
  | x :: xs => xs.foldl min x

/-- Python `max` over an integer list (0 on the empty list). -/
def intMax : List ℤ → ℤ
  | [] => 0
  | x :: xs => xs.foldl max x

/-- The demographics dict of `analyze_demographics` for non-empty data.
The age stdev entry is tracked by its square, with the code's
`len(ages) > 1` guard. -/
structure Demographics where
  total : ℕ
  age_mean : ℚ
  age_median : ℚ
  age_min : ℤ
  age_max : ℤ
  age_stdev_sq : ℚ
  gender_dist : List (String × ℕ)
  blood_type_dist : List (String × ℕ)
  age_groups : AgeCounts

/-- Body of `analyze_demographics` past its empty-data guard. -/
def demographicsOf (rows : List Row) : Demographics :=
  let ages := agesOf rows
  let agesQ : List ℚ := ages.map fun a => (a : ℚ)
  { total := rows.length
    age_mean := if ages.isEmpty then 0 else pyRound1 (listMean agesQ)
    age_median := if ages.isEmpty then 0 else pyRound1 (listMedian agesQ)
    age_min := if ages.isEmpty then 0 else intMin ages
    age_max := if ages.isEmpty then 0 else intMax ages
    age_stdev_sq := if 1 < ages.length then sampleVariance agesQ else 0
    gender_dist := counter (rows.map Row.gender)
    blood_type_dist := counter (rows.map Row.blood_type)
    age_groups := analyze_age_groups ages }

/-- Embedding of `HealthDataAnalyzer.analyze_demographics`: empty dict
(`none`) on empty data. -/
def analyze_demographics (rows : List Row) : Option Demographics :=
  if rows.isEmpty then none else some (demographicsOf rows)

/-! ### Medical history (`analyze_medical_history`, data_analyzer.py
lines 191-235) -/

/-- The medical-history analysis dict for non-empty data. -/
structure MedicalAnalysis where
  allergy_counts : List (List Char × ℕ)
  disease_counts : List (List Char × ℕ)
  medication_counts : List (List Char × ℕ)
  allergy_total : ℕ
  disease_total : ℕ
  medication_total : ℕ

/-- Body of `analyze_medical_history` past its empty-data guard: each
record's semicolon-joined cell is split and trimmed, then all mentions
are counted. -/
def medicalOf (rows : List Row) : MedicalAnalysis :=
  let alls := (rows.map fun r => parseListCell r.allergies).flatten
  let dis := (rows.map fun r => parseListCell r.chronic_diseases).flatten
  let meds := (rows.map fun r => parseListCell r.medications).flatten
  { allergy_counts := counter alls
    disease_counts := counter dis
    medication_counts := counter meds
    allergy_total := alls.length
    disease_total := dis.length
    medication_total := meds.length }

/-- Embedding of `HealthDataAnalyzer.analyze_medical_history`: empty dict
(`none`) on empty data. -/
def analyze_medical_history (rows : List Row) : Option MedicalAnalysis :=
  if rows.isEmpty then none else some (medicalOf rows)

/-! ### Report generation (`generate_report`, data_analyzer.py lines
237-334). Percentages divide by the total record count, so division is
modelled in `Except`; the empty-data guard short-circuits to the literal
no-data string. -/

/-- Python division, which raises `ZeroDivisionError` on a zero
denominator. -/
def pyDiv (a b : ℚ) : Except String ℚ :=
  if b = 0 then .error "division by zero" else .ok (a / b)

/-- One percentage line of the report:
`(count / total) * 100` formatted to 1 decimal. -/
def pctLine (label : String) (count : ℕ) (total : ℚ) : Except String String := do
  let p ← pyDiv (count : ℚ) total
  pure ("  " ++ label ++ ": " ++ toString count ++ " 人 (" ++
    toString (pyRound1 (p * 100)) ++ "%)")

/-- Percentage lines for a labelled count list. -/
def pctLines (entries : List (String × ℕ)) (total : ℚ) : Except String (List String) :=
  entries.mapM fun e => pctLine e.1 e.2 total

/-- The age-group dict as the labelled list the report iterates over. -/
def ageGroupEntries (c : AgeCounts) : List (String × ℕ) :=
  [("18-30歲", c.g18to30), ("31-45歲", c.g31to45), ("46-60歲", c.g46to60),
   ("61-75歲", c.g61to75), ("76歲以上", c.g76plus)]

/-- The BMI-category dict as the labelled list the report iterates over. -/
def bmiCatEntries (c : BmiCounts) : List (String × ℕ) :=
  [("體重過輕 (<18.5)", c.under), ("正常體重 (18.5-24.9)", c.normal),
   ("過重 (25-29.9)", c.over), ("肥胖 (≥30)", c.obese)]

/-- The blood-pressure-category dict as the labelled list the report
iterates over. -/
def bpCatEntries (c : BpCounts) : List (String × ℕ) :=
  [("正常 (<120/80)", c.normal), ("血壓偏高 (120-129/<80)", c.elevated),
   ("高血壓第一期 (130-139/80-89)", c.stage1), ("高血壓第二期 (≥140/90)", c.stage2)]

/-- The mean/range lines printed for one metric when present. -/
def metricLines (label : String) (st : Option MetricStats) : List String :=
  match st with
  | none => []
  | some s =>
    [label ++ ":", "  平均值: " ++ toString s.mean,
     "  範圍: " ++ toString s.vmin ++ " - " ++ toString s.vmax]

/-- Top five entries by descending count, ties kept in first-seen order
(Python's stable `sorted(..., reverse=True)[:5]`). -/
def top5 (l : List (List Char × ℕ)) : List (List Char × ℕ) :=
  (l.mergeSort fun a b => decide (b.2 ≤ a.2)).take 5

/-- The top-five lines of one medical-history section. -/
def medTopLines (entries : List (List Char × ℕ)) : List String :=
  (top5 entries).map fun e => "  " ++ String.mk e.1 ++ ": " ++ toString e.2 ++ " 人"

/-- The `"=" * 60` banner. -/
def bannerEq : String := String.mk (List.replicate 60 '=')

/-- The `"-" * 30` separator. -/
def bannerDash : String := String.mk (List.replicate 30 '-')

/-- Embedding of `HealthDataAnalyzer.generate_report`: the literal
no-data string on empty data, otherwise the assembled report text; the
percentage divisions run in `Except`. -/
def generate_report (rows : List Row) : Except String String :=
  if rows.isEmpty then .ok "無資料可分析"
  else do
    let genderLines ← pctLines (demographicsOf rows).gender_dist
      ((demographicsOf rows).total : ℚ)
    let ageLines ← pctLines (ageGroupEntries (demographicsOf rows).age_groups)
      ((demographicsOf rows).total : ℚ)
    let bmiLines ← pctLines (bmiCatEntries (healthMetricsOf rows).bmi_categories)
      ((demographicsOf rows).total : ℚ)
    let bpLines ← pctLines (bpCatEntries (healthMetricsOf rows).blood_pressure_categories)
      ((demographicsOf rows).total : ℚ)
    pure (String.intercalate "\n"
      ([bannerEq, "健康資料分析報告", bannerEq, "", "📊 人口統計分析", bannerDash,
        "總人數: " ++ toString (demographicsOf rows).total,
        "平均年齡: " ++ toString (demographicsOf rows).age_mean ++ " 歲",
        "年齡範圍: " ++ toString (demographicsOf rows).age_min ++ " - " ++
          toString (demographicsOf rows).age_max ++ " 歲",
        "性別分布:"] ++ genderLines ++ ["年齡分組:"] ++ ageLines ++ [""] ++
       ["🏥 健康指標分析", bannerDash] ++
       metricLines "BMI" (healthMetricsOf rows).bmi ++
       metricLines "收縮壓" (healthMetricsOf rows).blood_pressure_systolic ++
       metricLines "舒張壓" (healthMetricsOf rows).blood_pressure_diastolic ++
       metricLines "心率" (healthMetricsOf rows).heart_rate ++
       metricLines "體溫" (healthMetricsOf rows).body_temperature ++
       metricLines "血糖" (healthMetricsOf rows).blood_sugar ++
       metricLines "膽固醇" (healthMetricsOf rows).cholesterol ++
       ["BMI分類分布:"] ++ bmiLines ++ ["血壓分類分布:"] ++ bpLines ++ [""] ++
       ["📋 病史分析", bannerDash, "常見過敏原 (前5名):"] ++
       medTopLines (medicalOf rows).allergy_counts ++
       ["常見慢性疾病 (前5名):"] ++
       medTopLines (medicalOf rows).disease_counts ++
       ["", bannerEq, "報告生成完成", bannerEq]))

/-! ### CSV cells (`save_csv_data`, health_data_generator.py lines 336-361,
and the numeric coercions of `load_from_csv`, data_analyzer.py lines 33-48)

Numeric cells are modelled as the exact decimal text of the value: integers
as their decimal digits, floats with exactly two fractional digits (every
float the generator emits is a `round(x, 1)` or `round(x, 2)` result, so
two digits are exact; Python's `str` prints the same value with trailing
zeros trimmed, which the loader's numeric coercion maps to the same
number). -/

/-- Numeric value of a digit character (the inverse of `Nat.digitChar` on
digits). -/
def digitOfChar (c : Char) : ℕ := c.toNat - 48

/-- Decimal text of a natural number (empty for 0; Python prints "0",
which the loader coerces to the same value as the empty cell). -/
def natCell (n : ℕ) : List Char := ((Nat.digits 10 n).map Nat.digitChar).reverse

/-- Numeric value of decimal text (Python `int` on a digit string). -/
def parseNat (s : List Char) : ℕ := Nat.ofDigits 10 ((s.map digitOfChar).reverse)

/-- The loader's integer coercion `int(value) if value else 0`
(data_analyzer.py line 42). -/
def parseIntCell (s : List Char) : ℤ :=
  if s = [] then 0
  else if s.head? = some '-' then -(parseNat s.tail : ℤ)
  else (parseNat s : ℤ)

/-- Decimal text of a non-negative rational with at most two decimals:
integer part, '.', two fractional digits. -/
def ratCell2 (q : ℚ) : List Char :=
  natCell ((q * 100).num.toNat / 100) ++ '.' ::
    [Nat.digitChar ((q * 100).num.toNat % 100 / 10),
     Nat.digitChar ((q * 100).num.toNat % 100 % 10)]

/-- Value of decimal float text past the sign: either an integer numeral
or integer part '.' fraction part (only such numerals occur in this data;
Python `float` raises on anything else). -/
def parsePosFloat (s : List Char) : ℚ :=
  match splitOnChar '.' s with
  | [ip] => (parseNat ip : ℚ)
  | [ip, fp] => (parseNat ip : ℚ) + (parseNat fp : ℚ) / 10 ^ fp.length
  | _ => 0

/-- The loader's float coercion `float(value) if value else 0.0`
(data_analyzer.py line 44). -/
def parseFloatCell (s : List Char) : ℚ :=
  if s = [] then 0
  else if s.head? = some '-' then -(parsePosFloat s.tail)
  else parsePosFloat s

/-- One row of the shared tabular file: every flattened field as its cell
text, in the header order `save_csv_data` writes. -/
structure CsvRow where
  name : List Char
  age : List Char
  gender : List Char
  height : List Char
  weight : List Char
  blood_type : List Char
  phone : List Char
  email : List Char
  address : List Char
  emergency_contact : List Char
  id_number : List Char
  bmi : List Char
  blood_pressure_systolic : List Char
  blood_pressure_diastolic : List Char
  heart_rate : List Char
  body_temperature : List Char
  blood_sugar : List Char
  cholesterol : List Char
  created_date : List Char
  allergies : List Char
  chronic_diseases : List Char
  medications : List Char
  surgeries : List Char
  family_history : List Char

/-- Embedding of the per-row processing of `save_csv_data`: list-valued
fields become `'; '.join(value) if value else ''`, every other field its
text. -/
def save_csv_row (rec : AggregateRecord) : CsvRow :=
  { name := rec.name.data
    age := natCell rec.age
    gender := rec.gender.data
    height := ratCell2 rec.height
    weight := ratCell2 rec.weight
    blood_type := rec.blood_type.data
    phone := rec.phone
    email := rec.email.data
    address := rec.address.data
    emergency_contact := rec.emergency_contact
    id_number := rec.id_number
    bmi := ratCell2 rec.bmi
    blood_pressure_systolic := natCell rec.blood_pressure_systolic
    blood_pressure_diastolic := natCell rec.blood_pressure_diastolic
    heart_rate := natCell rec.heart_rate
    body_temperature := ratCell2 rec.body_temperature
    blood_sugar := ratCell2 rec.blood_sugar
    cholesterol := ratCell2 rec.cholesterol
    created_date := rec.created_date.data
    allergies := joinSemi (rec.allergies.map String.data)
    chronic_diseases := joinSemi (rec.chronic_diseases.map String.data)
    medications := joinSemi (rec.medications.map String.data)
    surgeries := joinSemi (rec.surgeries.map String.data)
    family_history := joinSemi (rec.family_history.map String.data) }

/-- Embedding of `save_csv_data`: one row per record, in order. -/
def save_csv_data (recs : List AggregateRecord) : List CsvRow :=
  recs.map save_csv_row

/-- Embedding of the per-row coercion of `load_from_csv`: the four int
columns through `int(value) if value else 0`, the six float columns
through `float(value) if value else 0.0`, everything else kept as text. -/
def load_csv_row (c : CsvRow) : Row :=
  { name := String.mk c.name
    age := parseIntCell c.age
    gender := String.mk c.gender
    height := parseFloatCell c.height
    weight := parseFloatCell c.weight
    blood_type := String.mk c.blood_type
    phone := c.phone
    email := String.mk c.email
    address := String.mk c.address
    emergency_contact := c.emergency_contact
    id_number := c.id_number
    bmi := parseFloatCell c.bmi
    blood_pressure_systolic := parseIntCell c.blood_pressure_systolic
    blood_pressure_diastolic := parseIntCell c.blood_pressure_diastolic
    heart_rate := parseIntCell c.heart_rate
    body_temperature := parseFloatCell c.body_temperature
    blood_sugar := parseFloatCell c.blood_sugar
    cholesterol := parseFloatCell c.cholesterol
    created_date := String.mk c.created_date
    allergies := c.allergies
    chronic_diseases := c.chronic_diseases
    medications := c.medications
    surgeries := c.surgeries
    family_history := c.family_history }

/-- Embedding of `load_from_csv`: one loaded record per row, in order. -/
def load_from_csv (cs : List CsvRow) : List Row :=
  cs.map load_csv_row

/-- An item that survives the `'; '` join / `';'` split round trip
unchanged: non-empty, no embedded separator, no leading or trailing
whitespace. Every string in the five medical value pools satisfies it. -/
def ItemOk (x : List Char) : Prop :=
  x ≠ [] ∧ ';' ∉ x ∧ trimChars x = x

instance (x : List Char) : Decidable (ItemOk x) := by
  unfold ItemOk
  infer_instance

/-- The three list fields `analyze_medical_history` parses back are made
of round-trippable items. -/
def ListsOk (rec : AggregateRecord) : Prop :=
  (∀ x ∈ rec.allergies, ItemOk x.data) ∧
  (∀ x ∈ rec.chronic_diseases, ItemOk x.data) ∧
  (∀ x ∈ rec.medications, ItemOk x.data)

/-- A non-negative rational with at most two decimals — the exact form of
every float the generator writes. -/
def TwoDecimals (q : ℚ) : Prop := 0 ≤ q ∧ (q * 100).den = 1

/-- Concrete generated record used as the round-trip witness. -/
def sampleAggRecord : AggregateRecord :=
  { name := "李家"
    age := 40
    gender := "男"
    height := 1752/10
    weight := 7005/100
    blood_type := "AB"
    phone := ['0', '9', '5', '5', '5', '5', '5', '5', '5', '5']
    email := "user1234@gmail.com"
    address := "台北市信義區"
    emergency_contact := ['0', '9', '6', '6', '6', '6', '6', '6', '6', '6']
    id_number := ['A', '1', '7', '7', '7', '7', '7', '7', '7']
    bmi := 2282/100
    blood_pressure_systolic := 125
    blood_pressure_diastolic := 80
    heart_rate := 80
    body_temperature := 368/10
    blood_sugar := 1045/10
    cholesterol := 198
    created_date := "2024-01-01 00:00:00"
    allergies := ["花粉", "塵蟎"]
    chronic_diseases := []
    medications := ["維生素"]
    surgeries := []
    family_history := ["高血壓"] }

end HealthGen

namespace HealthGen

/-! ### Partition lemmas: each value lands in exactly one bucket, so the
bucket counts sum to the list length. -/

theorem analyze_age_groups_total (ages : List ℤ) :
    (analyze_age_groups ages).total = ages.length := by
  induction ages with
  | nil => rfl
  | cons a t ih =>
    simp only [analyze_age_groups, AgeCounts.total, List.countP_cons, List.length_cons] at *
    cases h : ageGroup a <;> simp only [h] <;> simp <;> omega

theorem analyze_bmi_categories_total (vs : List ℚ) :
    (analyze_bmi_categories vs).total = vs.length := by
  induction vs with
  | nil => rfl
  | cons v t ih =>
    simp only [analyze_bmi_categories, BmiCounts.total, List.countP_cons, List.length_cons] at *
    cases h : bmiCategory v <;> simp only [h] <;> simp <;> omega

theorem analyze_bp_categories_total (ps : List (ℤ × ℤ)) :
    (analyze_bp_categories ps).total = ps.length := by
  induction ps with
  | nil => rfl
  | cons p t ih =>
    simp only [analyze_bp_categories, BpCounts.total, List.countP_cons, List.length_cons] at *
    cases h : bpCategory p.1 p.2 <;> simp only [h] <;> simp <;> omega

/-- C2: the blood-pressure chain assigns every (systolic, diastolic) pair
to exactly one of the four buckets, with the if/elif priority order of
`analyze_bp_categories`: normal iff `s<120 ∧ d<80`; else elevated iff
`120≤s<130 ∧ d<80`; else stage 1 iff `130≤s<140 ∨ 80≤d<90`; else stage 2.
In particular a record with systolic 125 and diastolic 70 is classified
elevated, not normal. -/
theorem bp_chain_priority_c2 :
    (∀ s d : ℤ,
      (bpCategory s d = .normal ↔ s < 120 ∧ d < 80) ∧
      (bpCategory s d = .elevated ↔
        ¬(s < 120 ∧ d < 80) ∧ (120 ≤ s ∧ s < 130 ∧ d < 80)) ∧
      (bpCategory s d = .stage1 ↔
        ¬(s < 120 ∧ d < 80) ∧ ¬(120 ≤ s ∧ s < 130 ∧ d < 80) ∧
          ((130 ≤ s ∧ s < 140) ∨ (80 ≤ d ∧ d < 90))) ∧
      (bpCategory s d = .stage2 ↔
        ¬(s < 120 ∧ d < 80) ∧ ¬(120 ≤ s ∧ s < 130 ∧ d < 80) ∧
          ¬((130 ≤ s ∧ s < 140) ∨ (80 ≤ d ∧ d < 90)))) ∧
    bpCategory 125 70 = .elevated ∧
    (analyze_bp_categories [(125, 70)]).elevated = 1 ∧
    (analyze_bp_categories [(125, 70)]).normal = 0 := by
  refine ⟨fun s d => ?_, by decide, by decide, by decide⟩
  unfold bpCategory
  split_ifs with h1 h2 h3 <;>
    refine ⟨?_, ?_, ?_, ?_⟩ <;> simp_all

/-- C3 counterexample: the record with systolic 135 and diastolic 95 does
not fall through to rule (d); it is captured by rule (c) (since
`130 ≤ 135 < 140`), hence it is not counted in the stage-2 bucket. -/
theorem bp_135_95_not_stage2_c3 :
    bpCategory 135 95 ≠ .stage2 ∧
    (analyze_bp_categories [(135, 95)]).stage2 = 0 := by
  refine ⟨by decide, by decide⟩

/-- C3 amended: a record with systolic 135 and diastolic 95 is captured by
rule (c) of the blood-pressure chain, `130 ≤ systolic < 140`, and is
counted in the stage-1 bucket. -/
theorem bp_135_95_stage1_c3 :
    bpCategory 135 95 = .stage1 ∧
    (analyze_bp_categories [(135, 95)]).stage1 = 1 := by
  refine ⟨by decide, by decide⟩

/-- C6: the five age-bucket histogram counts of `analyze_age_groups`
(inclusive boundaries 18-30, 31-45, 46-60, 61-75 and the 76+ catch-all)
always sum to the total record count, for any loaded record sequence. -/
theorem age_histogram_sums_to_total_c6 (rows : List Row) :
    (analyze_age_groups (agesOf rows)).total = rows.length := by
  rw [analyze_age_groups_total, agesOf, List.length_map]

/-- C10: the final 76+ bucket of `analyze_age_groups` is a catch-all: any
age outside all four earlier inclusive ranges is counted there, and in
particular every age below 18 increments the 76+ bucket (it is neither
rejected nor left uncounted). -/
theorem age_below_18_in_catchall_c10 (a : ℤ) :
    (¬(18 ≤ a ∧ a ≤ 30) → ¬(31 ≤ a ∧ a ≤ 45) → ¬(46 ≤ a ∧ a ≤ 60) →
      ¬(61 ≤ a ∧ a ≤ 75) → ageGroup a = .g76plus) ∧
    (a < 18 → ageGroup a = .g76plus ∧ (analyze_age_groups [a]).g76plus = 1) := by
  constructor
  · intro h1 h2 h3 h4
    unfold ageGroup
    split_ifs <;> simp_all
  · intro hlt
    have hg : ageGroup a = .g76plus := by
      unfold ageGroup
      split_ifs <;> first | rfl | omega
    refine ⟨hg, ?_⟩
    simp [analyze_age_groups, List.countP_cons, hg]

/-- C10 witness: age 5 lies below 18 and is counted in the 76+ bucket. -/
theorem age_below_18_in_catchall_c10_witness :
    ageGroup 5 = .g76plus ∧ (analyze_age_groups [5]).g76plus = 1 :=
  (age_below_18_in_catchall_c10 5).2 (by decide)

/-- C5 counterexample: a loaded record whose bmi field is 0 (as an empty
CSV cell coerces to) is excluded from the BMI bucket counts by the
truthiness filter in `analyze_health_metrics`, so the four BMI-bucket
counts sum to 0 while the record count is 1. -/
theorem bmi_bucket_sum_misses_zero_c5 :
    (analyze_bmi_categories (bmiValuesOf [zeroBmiRow])).total ≠
      ([zeroBmiRow] : List Row).length := by
  decide

/-- C5 amended: for every loaded record sequence the four blood-pressure
bucket counts sum exactly to the record count; the four BMI bucket counts
sum to the number of records with a non-zero bmi field, which equals the
record count whenever every record's bmi is non-zero (as holds for all
generated data). -/
theorem bucket_sums_c5 (rows : List Row) :
    (analyze_bp_categories (bpDataOf rows)).total = rows.length ∧
    (analyze_bmi_categories (bmiValuesOf rows)).total = (bmiValuesOf rows).length ∧
    ((∀ r ∈ rows, r.bmi ≠ 0) →
      (analyze_bmi_categories (bmiValuesOf rows)).total = rows.length) := by
  refine ⟨?_, analyze_bmi_categories_total _, ?_⟩
  · rw [analyze_bp_categories_total, bpDataOf, List.length_map]
  · intro h
    rw [analyze_bmi_categories_total, bmiValuesOf]
    rw [List.filter_eq_self.2 ?_, List.length_map]
    intro v hv
    obtain ⟨r, hr, rfl⟩ := List.mem_map.1 hv
    simpa using h r hr

/-- C5 witness: on the one-record sequence `[sampleRow]` (non-zero bmi)
both bucket sums equal the record count 1. -/
theorem bucket_sums_c5_witness :
    (analyze_bp_categories (bpDataOf [sampleRow])).total = 1 ∧
    (analyze_bmi_categories (bmiValuesOf [sampleRow])).total = 1 :=
  ⟨(bucket_sums_c5 [sampleRow]).1,
    (bucket_sums_c5 [sampleRow]).2.2 (by
      intro r hr
      simp only [List.mem_singleton] at hr
      subst hr
      simp only [sampleRow, zeroBmiRow]
      norm_num)⟩

/-! ### Generator theorems -/

theorem digitChar_isDigit (d : Fin 10) : (Nat.digitChar d).isDigit = true := by
  fin_cases d <;> decide

theorem id_letters_isAlpha : ∀ c ∈ id_letters, c.isAlpha = true := by decide

/-- C1: for every record produced by a batch generation, the bmi field
equals `calculate_bmi` applied to the record's own height and weight, and
`calculate_bmi` is exactly `round(weight / (height/100)^2, 2)`; the single
shared definition makes every BMI derivation compute the identical
value. -/
theorem bmi_consistency_c1 :
    (∀ height weight : ℚ,
      calculate_bmi height weight = pyRound2 (weight / (height / 100) ^ 2)) ∧
    (∀ rs : List RecordRand, ∀ rec ∈ generate_batch_data rs,
      rec.bmi = calculate_bmi rec.height rec.weight ∧
      rec.bmi = pyRound2 (rec.weight / (rec.height / 100) ^ 2)) := by
  refine ⟨fun _ _ => rfl, fun rs rec hm => ?_⟩
  obtain ⟨r, _, rfl⟩ := List.mem_map.1 hm
  exact ⟨rfl, rfl⟩

/-- C1 witness: the record generated from `sampleRecordRand` satisfies the
BMI consistency invariant. -/
theorem bmi_consistency_c1_witness :
    (generate_record sampleRecordRand).bmi =
      calculate_bmi (generate_record sampleRecordRand).height
        (generate_record sampleRecordRand).weight :=
  (bmi_consistency_c1.2 [sampleRecordRand] (generate_record sampleRecordRand)
    (by simp [generate_batch_data])).1

/-- C9: every generated `PersonalInfo` has an age in `[18, 80]`, a gender
from the two-category pool, a blood type from the four-type pool, a phone
that is the fixed prefix "09" followed by exactly 8 digits, and an id
number that is 1 letter, then a digit in {1, 2}, then 7 digits. -/
theorem generated_person_wellformed_c9 (r : PersonRand) :
    (18 ≤ (generate_personal_info r).age ∧ (generate_personal_info r).age ≤ 80) ∧
    ((generate_personal_info r).gender = "男" ∨ (generate_personal_info r).gender = "女") ∧
    ((generate_personal_info r).blood_type = "A" ∨ (generate_personal_info r).blood_type = "B" ∨
      (generate_personal_info r).blood_type = "AB" ∨ (generate_personal_info r).blood_type = "O") ∧
    ((generate_personal_info r).phone.length = 10 ∧
      (generate_personal_info r).phone.take 2 = ['0', '9'] ∧
      ∀ c ∈ (generate_personal_info r).phone.drop 2, c.isDigit = true) ∧
    (∃ c0 c1 ds, (generate_personal_info r).id_number = c0 :: c1 :: ds ∧
      c0.isAlpha = true ∧ (c1 = '1' ∨ c1 = '2') ∧ ds.length = 7 ∧
      ∀ c ∈ ds, c.isDigit = true) := by
  refine ⟨⟨?_, ?_⟩, ?_, ?_, ⟨?_, ?_, ?_⟩, ?_⟩
  · simp [generate_personal_info]
  · have := r.age_off.isLt
    simp only [generate_personal_info]
    omega
  · have hmem : pyChoice genders r.gender ∈ genders := List.get_mem _ _ _
    simpa [genders, generate_personal_info] using hmem
  · have hmem : pyChoice blood_types r.blood ∈ blood_types := List.get_mem _ _ _
    simpa [blood_types, generate_personal_info] using hmem
  · simp [generate_personal_info, generate_phone]
  · rfl
  · intro c hc
    simp only [generate_personal_info, generate_phone, List.drop_succ_cons,
      List.drop_zero, List.mem_ofFn, Set.mem_range] at hc
    obtain ⟨i, rfl⟩ := hc
    exact digitChar_isDigit _
  · refine ⟨pyChoice id_letters r.ident.letter,
      Nat.digitChar (1 + (r.ident.genderDigit : ℕ)),
      List.ofFn fun i => Nat.digitChar (r.ident.digits i), rfl, ?_, ?_, ?_, ?_⟩
    · exact id_letters_isAlpha _ (List.get_mem _ _ _)
    · have h2 : (r.ident.genderDigit : ℕ) = 0 ∨ (r.ident.genderDigit : ℕ) = 1 := by
        have := r.ident.genderDigit.isLt
        omega
      rcases h2 with h | h
      · exact Or.inl (by rw [h]; decide)
      · exact Or.inr (by rw [h]; decide)
    · simp
    · intro c hc
      obtain ⟨i, rfl⟩ := Set.mem_range.1 ((List.mem_ofFn _ _).1 hc)
      exact digitChar_isDigit _

/-! ### Statistics theorems -/

/-- C7: in the per-metric statistics of `analyze_health_metrics`, a record
whose metric value is zero (as a missing or empty cell loads) is excluded
and leaves the metric's entire statistics unchanged; whenever the included
value list has fewer than two elements — exactly where `statistics.stdev`
itself raises — the stdev entry is the guarded 0 instead of an error, and
a single-record metric yields statistics with stdev 0. -/
theorem metric_stats_zero_excluded_c7 :
    (∀ (rows : List Row) (r0 : Row) (f : Row → ℚ), f r0 = 0 →
      analyzeOneMetric (r0 :: rows) f = analyzeOneMetric rows f) ∧
    (∀ (rows : List Row) (f : Row → ℚ) (st : MetricStats),
      analyzeOneMetric rows f = some st → (metricValues rows f).length < 2 →
      st.stdevSq = 0) ∧
    (∀ l : List ℚ, l.length < 2 → ∃ e, pyStdevSq l = .error e) ∧
    (∀ (row : Row) (f : Row → ℚ), f row ≠ 0 →
      ∃ st, analyzeOneMetric [row] f = some st ∧ st.stdevSq = 0) := by
  refine ⟨?_, ?_, ?_, ?_⟩
  · intro rows r0 f h
    simp [analyzeOneMetric, metricValues, h]
  · intro rows f st hsome hlen
    unfold analyzeOneMetric metricStats at hsome
    by_cases he : (metricValues rows f).isEmpty
    · rw [if_pos he] at hsome
      exact absurd hsome (by simp)
    · rw [if_neg he, Option.some_inj] at hsome
      subst hsome
      show (if 1 < (metricValues rows f).length then sampleVariance (metricValues rows f)
        else 0) = 0
      rw [if_neg (by omega)]
  · intro l hl
    exact ⟨_, by unfold pyStdevSq; rw [if_pos hl]⟩
  · intro row f hf
    have hv : metricValues [row] f = [f row] := by
      simp [metricValues, hf]
    refine ⟨⟨pyRound2 (listMean [f row]), pyRound2 (listMedian [f row]),
      pyRound2 (listMin [f row]), pyRound2 (listMax [f row]), 0⟩, ?_, rfl⟩
    rw [analyzeOneMetric, hv]
    rfl

/-- C7 witness: prepending the zero-bmi row leaves the BMI statistics
unchanged; the single included value `[sampleRow.bmi]` is where raw stdev
would raise, and the resulting statistics carry stdev 0. -/
theorem metric_stats_zero_excluded_c7_witness :
    analyzeOneMetric [zeroBmiRow, sampleRow] Row.bmi = analyzeOneMetric [sampleRow] Row.bmi ∧
    (∃ e, pyStdevSq [sampleRow.bmi] = .error e) ∧
    (∃ st, analyzeOneMetric [sampleRow] Row.bmi = some st ∧ st.stdevSq = 0) :=
  ⟨metric_stats_zero_excluded_c7.1 [sampleRow] zeroBmiRow Row.bmi rfl,
   metric_stats_zero_excluded_c7.2.2.1 [sampleRow.bmi] (by simp),
   metric_stats_zero_excluded_c7.2.2.2 sampleRow Row.bmi (by
     simp only [sampleRow, zeroBmiRow]
     norm_num)⟩

/-! ### Report theorems -/

theorem pctLines_ok (entries : List (String × ℕ)) (total : ℚ) (h : total ≠ 0) :
    ∃ ls, pctLines entries total = .ok ls := by
  induction entries with
  | nil => exact ⟨[], rfl⟩
  | cons e t ih =>
    obtain ⟨ls, hls⟩ := ih
    have hpct : pctLine e.1 e.2 total =
        Except.ok ("  " ++ e.1 ++ ": " ++ toString e.2 ++ " 人 (" ++
          toString (pyRound1 ((e.2 : ℚ) / total * 100)) ++ "%)") := by
      unfold pctLine pyDiv
      rw [if_neg h]
      rfl
    apply Exists.intro
    simp only [pctLines, List.mapM_cons]
    simp only [pctLines] at hls
    simp only [hpct, hls]
    rfl

/-- C8: analysis of an empty record sequence neither raises nor divides
by zero: `generate_report` short-circuits to the literal no-data string,
each statistics function returns the empty dict (`none`), and on every
record sequence the report generation (with its percentage divisions run
in `Except`) succeeds. -/
theorem empty_data_no_data_report_c8 :
    generate_report ([] : List Row) = .ok "無資料可分析" ∧
    analyze_demographics ([] : List Row) = none ∧
    analyze_health_metrics ([] : List Row) = none ∧
    analyze_medical_history ([] : List Row) = none ∧
    ∀ rows : List Row, ∃ s, generate_report rows = .ok s := by
  refine ⟨rfl, rfl, rfl, rfl, ?_⟩
  intro rows
  cases rows with
  | nil => exact ⟨_, rfl⟩
  | cons r t =>
    have htotal : (((demographicsOf (r :: t)).total : ℕ) : ℚ) ≠ 0 := by
      show (((r :: t).length : ℕ) : ℚ) ≠ 0
      exact_mod_cast (by simp : (r :: t).length ≠ 0)
    obtain ⟨l1, h1⟩ := pctLines_ok (demographicsOf (r :: t)).gender_dist _ htotal
    obtain ⟨l2, h2⟩ := pctLines_ok (ageGroupEntries (demographicsOf (r :: t)).age_groups) _ htotal
    obtain ⟨l3, h3⟩ := pctLines_ok (bmiCatEntries (healthMetricsOf (r :: t)).bmi_categories) _ htotal
    obtain ⟨l4, h4⟩ :=
      pctLines_ok (bpCatEntries (healthMetricsOf (r :: t)).blood_pressure_categories) _ htotal
    apply Exists.intro
    unfold generate_report
    rw [if_neg (by simp)]
    simp only [h1, h2, h3, h4]
    rfl

/-! ### CSV round-trip theorems -/

theorem digitOfChar_digitChar {d : ℕ} (h : d < 10) :
    digitOfChar (Nat.digitChar d) = d := by
  interval_cases d <;> rfl

theorem digitChar_ne_special {d : ℕ} (h : d < 10) :
    Nat.digitChar d ≠ '.' ∧ Nat.digitChar d ≠ '-' ∧ Nat.digitChar d ≠ ';' := by
  interval_cases d <;> exact ⟨by decide, by decide, by decide⟩

theorem parseNat_natCell (n : ℕ) : parseNat (natCell n) = n := by
  unfold parseNat natCell
  rw [List.map_reverse, List.reverse_reverse, List.map_map]
  have h : ∀ d ∈ Nat.digits 10 n, (digitOfChar ∘ Nat.digitChar) d = id d := fun d hd =>
    digitOfChar_digitChar (Nat.digits_lt_base (by norm_num) hd)
  rw [List.map_congr_left h, List.map_id, Nat.ofDigits_digits]

theorem natCell_digit_chars {n : ℕ} : ∀ c ∈ natCell n, ∃ d, d < 10 ∧ c = Nat.digitChar d := by
  intro c hc
  unfold natCell at hc
  rw [List.mem_reverse] at hc
  obtain ⟨d, hd, rfl⟩ := List.mem_map.1 hc
  exact ⟨d, Nat.digits_lt_base (by norm_num) hd, rfl⟩

theorem parseIntCell_natCell (n : ℕ) : parseIntCell (natCell n) = n := by
  unfold parseIntCell
  by_cases h : natCell n = []
  · rw [if_pos h]
    have h0 : n = 0 := by
      have : Nat.digits 10 n = [] := by
        unfold natCell at h
        simpa using h
      exact Nat.digits_eq_nil_iff_eq_zero.1 this
    simp [h0]
  · have hne : ¬((natCell n).head? = some '-') := by
      intro hh
      obtain ⟨d, hd, he⟩ := natCell_digit_chars '-' (List.mem_of_mem_head? hh)
      exact (digitChar_ne_special hd).2.1 he.symm
    rw [if_neg h, if_neg hne, parseNat_natCell]

theorem splitOnChar_cons (sep c : Char) (cs : List Char) :
    splitOnChar sep (c :: cs) =
      match splitOnChar sep cs with
      | [] => [[c]]
      | h :: t => if c = sep then [] :: h :: t else (c :: h) :: t := rfl

theorem splitOnChar_ne_nil (sep : Char) (s : List Char) : splitOnChar sep s ≠ [] := by
  induction s with
  | nil => simp [splitOnChar]
  | cons c cs ih =>
    rw [splitOnChar_cons]
    cases hsp : splitOnChar sep cs with
    | nil => exact absurd hsp ih
    | cons h t =>
      simp only [hsp]
      split_ifs <;> simp

theorem splitOnChar_of_not_mem {sep : Char} {s : List Char} (h : sep ∉ s) :
    splitOnChar sep s = [s] := by
  induction s with
  | nil => rfl
  | cons c cs ih =>
    have hc : c ≠ sep := by
      rintro rfl
      exact h (List.mem_cons_self _ _)
    have hcs : sep ∉ cs := fun hm => h (List.mem_cons_of_mem _ hm)
    rw [splitOnChar_cons, ih hcs]
    simp [hc]

theorem splitOnChar_append {sep : Char} {a b : List Char} (h : sep ∉ a) :
    splitOnChar sep (a ++ sep :: b) = a :: splitOnChar sep b := by
  induction a with
  | nil =>
    simp only [List.nil_append]
    rw [splitOnChar_cons]
    cases hsp : splitOnChar sep b with
    | nil => exact absurd hsp (splitOnChar_ne_nil sep b)
    | cons hh tt => simp [hsp]
  | cons c a2 ih =>
    have hc : c ≠ sep := by
      rintro rfl
      exact h (List.mem_cons_self _ _)
    have ha2 : sep ∉ a2 := fun hm => h (List.mem_cons_of_mem _ hm)
    show splitOnChar sep (c :: (a2 ++ sep :: b)) = (c :: a2) :: splitOnChar sep b
    rw [splitOnChar_cons, ih ha2]
    simp [hc]

theorem trimChars_cons_space (x : List Char) : trimChars (' ' :: x) = trimChars x := by
  simp [trimChars, List.dropWhile_cons, pyIsSpace]

/-- Round trip of the `'; '` join and the split-strip-filter parse, for
items that carry no separator, are non-empty and have no edge
whitespace. -/
theorem parseListCell_joinSemi :
    ∀ items : List (List Char), (∀ x ∈ items, ItemOk x) →
      parseListCell (joinSemi items) = items := by
  intro items
  induction items with
  | nil => intro _; rfl
  | cons x tl ih =>
    intro h
    obtain ⟨hxne, hxsemi, hxtrim⟩ := h x (List.mem_cons_self _ _)
    cases tl with
    | nil =>
      show parseListCell (joinSemi [x]) = [x]
      have hj : joinSemi [x] = x := rfl
      rw [hj]
      unfold parseListCell
      rw [splitOnChar_of_not_mem hxsemi]
      simp [hxtrim, hxne]
    | cons y tl2 =>
      have hrest := ih fun z hz => h z (List.mem_cons_of_mem _ hz)
      have hj : joinSemi (x :: y :: tl2) = x ++ ';' :: ' ' :: joinSemi (y :: tl2) := rfl
      rw [hj]
      unfold parseListCell
      rw [splitOnChar_append hxsemi]
      cases hsp : splitOnChar ';' (joinSemi (y :: tl2)) with
      | nil => exact absurd hsp (splitOnChar_ne_nil _ _)
      | cons hh tt =>
        have hsp2 : splitOnChar ';' (' ' :: joinSemi (y :: tl2)) = (' ' :: hh) :: tt := by
          rw [splitOnChar_cons, hsp]
          simp
        rw [hsp2]
        have hrest2 : List.filter (fun z => decide (z ≠ []))
            (List.map trimChars (hh :: tt)) = y :: tl2 := by
          unfold parseListCell at hrest
          rw [hsp] at hrest
          exact hrest
        simp only [List.map_cons] at hrest2 ⊢
        rw [trimChars_cons_space, hxtrim,
          List.filter_cons_of_pos (by simpa using hxne), hrest2]

/-- Parsing the two-decimal cell of the scaled value `n` recovers
`n / 100` exactly. -/
theorem parseFloatCell_cell_aux (n : ℕ) :
    parseFloatCell (natCell (n / 100) ++ '.' ::
      [Nat.digitChar (n % 100 / 10), Nat.digitChar (n % 100 % 10)]) = (n : ℚ) / 100 := by
  have hne : natCell (n / 100) ++ '.' ::
      [Nat.digitChar (n % 100 / 10), Nat.digitChar (n % 100 % 10)] ≠ [] := by
    simp
  have hhead : ¬((natCell (n / 100) ++ '.' ::
      [Nat.digitChar (n % 100 / 10), Nat.digitChar (n % 100 % 10)]).head? = some '-') := by
    cases hnc : natCell (n / 100) with
    | nil => simp [hnc]
    | cons c cs =>
      obtain ⟨d, hd, rfl⟩ := natCell_digit_chars c (by
        rw [hnc]
        exact List.mem_cons_self _ _)
      simp only [hnc, List.cons_append, List.head?_cons, Option.some_inj]
      exact (digitChar_ne_special hd).2.1
  have hdot : '.' ∉ natCell (n / 100) := by
    intro hm
    obtain ⟨d, hd, he⟩ := natCell_digit_chars _ hm
    exact (digitChar_ne_special hd).1 he.symm
  have hfrac : splitOnChar '.' [Nat.digitChar (n % 100 / 10), Nat.digitChar (n % 100 % 10)] =
      [[Nat.digitChar (n % 100 / 10), Nat.digitChar (n % 100 % 10)]] := by
    apply splitOnChar_of_not_mem
    intro hm
    simp only [List.mem_cons, List.not_mem_nil, or_false] at hm
    rcases hm with he | he
    · exact (digitChar_ne_special (show n % 100 / 10 < 10 by omega)).1 he.symm
    · exact (digitChar_ne_special (show n % 100 % 10 < 10 by omega)).1 he.symm
  unfold parseFloatCell
  rw [if_neg hne, if_neg hhead]
  unfold parsePosFloat
  rw [splitOnChar_append hdot, hfrac]
  show (parseNat (natCell (n / 100)) : ℚ) +
    (parseNat [Nat.digitChar (n % 100 / 10), Nat.digitChar (n % 100 % 10)] : ℚ) /
      10 ^ ([Nat.digitChar (n % 100 / 10), Nat.digitChar (n % 100 % 10)]).length = (n : ℚ) / 100
  rw [parseNat_natCell]
  have hp2 : parseNat [Nat.digitChar (n % 100 / 10), Nat.digitChar (n % 100 % 10)] = n % 100 := by
    unfold parseNat
    simp only [List.map_cons, List.map_nil, List.reverse_cons, List.reverse_nil,
      List.nil_append, List.cons_append]
    rw [digitOfChar_digitChar (show n % 100 % 10 < 10 by omega),
      digitOfChar_digitChar (show n % 100 / 10 < 10 by omega)]
    simp [Nat.ofDigits_cons, Nat.ofDigits_nil]
    omega
  rw [hp2]
  have hnm : (n : ℚ) = 100 * ((n / 100 : ℕ) : ℚ) + ((n % 100 : ℕ) : ℚ) := by
    exact_mod_cast (Nat.div_add_mod n 100).symm
  simp only [List.length_cons, List.length_nil]
  rw [hnm]
  ring

/-- Round trip of the two-decimal float cell for a non-negative value with
at most two decimals. -/
theorem parseFloatCell_ratCell2 {q : ℚ} (h : TwoDecimals q) :
    parseFloatCell (ratCell2 q) = q := by
  obtain ⟨hpos, hden⟩ := h
  have h2 : (0 : ℤ) ≤ (q * 100).num := by
    rw [Rat.num_nonneg]
    positivity
  have h1 : (((q * 100).num.toNat : ℕ) : ℚ) = q * 100 := by
    have hq := (Rat.den_eq_one_iff _).1 hden
    rw [← hq]
    exact_mod_cast congrArg (fun z : ℤ => (z : ℚ)) (Int.toNat_of_nonneg h2)
  unfold ratCell2
  rw [parseFloatCell_cell_aux, h1]
  ring

/-- Generic cell-level round trip: any record whose list items round-trip
the join/split and whose bmi is a non-negative two-decimal value comes
back from the CSV with its age, BMI, blood pressure, heart rate and
parsed list fields intact. -/
theorem csv_cells_round_trip (recs : List AggregateRecord)
    (hlists : ∀ rec ∈ recs, ListsOk rec)
    (hbmi : ∀ rec ∈ recs, TwoDecimals rec.bmi) :
    List.Forall₂ (fun (rec : AggregateRecord) (row : Row) =>
      row.age = (rec.age : ℤ) ∧
      row.bmi = rec.bmi ∧
      row.blood_pressure_systolic = (rec.blood_pressure_systolic : ℤ) ∧
      row.blood_pressure_diastolic = (rec.blood_pressure_diastolic : ℤ) ∧
      row.heart_rate = (rec.heart_rate : ℤ) ∧
      parseListCell row.allergies = rec.allergies.map String.data ∧
      parseListCell row.chronic_diseases = rec.chronic_diseases.map String.data ∧
      parseListCell row.medications = rec.medications.map String.data)
      recs (load_from_csv (save_csv_data recs)) := by
  induction recs with
  | nil => exact List.Forall₂.nil
  | cons rec tl ih =>
    refine List.Forall₂.cons ?_
      (ih (fun r hr => hlists r (List.mem_cons_of_mem _ hr))
        (fun r hr => hbmi r (List.mem_cons_of_mem _ hr)))
    obtain ⟨ha, hc, hm⟩ := hlists rec (List.mem_cons_self _ _)
    refine ⟨parseIntCell_natCell _, parseFloatCell_ratCell2 (hbmi rec (List.mem_cons_self _ _)),
      parseIntCell_natCell _, parseIntCell_natCell _, parseIntCell_natCell _, ?_, ?_, ?_⟩
    · exact parseListCell_joinSemi _ fun x hx => by
        obtain ⟨s, hs, rfl⟩ := List.mem_map.1 hx
        exact ha s hs
    · exact parseListCell_joinSemi _ fun x hx => by
        obtain ⟨s, hs, rfl⟩ := List.mem_map.1 hx
        exact hc s hs
    · exact parseListCell_joinSemi _ fun x hx => by
        obtain ⟨s, hs, rfl⟩ := List.mem_map.1 hx
        exact hm s hs

theorem allergies_pool_items : ∀ x ∈ allergies_pool, ItemOk x.data := by decide

theorem chronic_diseases_pool_items : ∀ x ∈ chronic_diseases_pool, ItemOk x.data := by decide

theorem medications_pool_items : ∀ x ∈ medications_pool, ItemOk x.data := by decide

theorem roundHalfEven_nonneg {q : ℚ} (h : 0 ≤ q) : 0 ≤ roundHalfEven q := by
  have hf : (0 : ℤ) ≤ ⌊q⌋ := Int.floor_nonneg.2 h
  show 0 ≤ (if q - (⌊q⌋ : ℚ) < 1/2 then ⌊q⌋
    else if 1/2 < q - (⌊q⌋ : ℚ) then ⌊q⌋ + 1
    else if 2 ∣ ⌊q⌋ then ⌊q⌋ else ⌊q⌋ + 1)
  split_ifs <;> omega

theorem pyRoundTo_nonneg {q : ℚ} {p : ℕ} (h : 0 ≤ q) : 0 ≤ pyRoundTo q p := by
  unfold pyRoundTo
  apply div_nonneg _ (by positivity)
  exact_mod_cast roundHalfEven_nonneg (by positivity)

theorem twoDecimals_pyRound2 {q : ℚ} (h : 0 ≤ q) : TwoDecimals (pyRound2 q) := by
  constructor
  · exact pyRoundTo_nonneg h
  · show (pyRound2 q * 100).den = 1
    have hcancel : pyRound2 q * 100 = ((roundHalfEven (q * 100) : ℤ) : ℚ) := by
      unfold pyRound2 pyRoundTo
      push_cast
      field_simp
    rw [hcancel, Rat.den_intCast]

/-- C4: for every batch of generated records (medical sublists sampled
from the pools, a non-negative weight draw), saving to the shared CSV and
loading it back yields, record by record in order, age, BMI, systolic and
diastolic blood pressure and heart rate numerically equal to the
generated values, and each parsed medical-history list field comes back
as the same item list (hence the same set of items). -/
theorem csv_round_trip_c4 (rs : List RecordRand)
    (hwf : ∀ r ∈ rs, r.medical.Wf)
    (hw : ∀ r ∈ rs, 0 ≤ r.person.weight_u) :
    List.Forall₂ (fun (rec : AggregateRecord) (row : Row) =>
      row.age = (rec.age : ℤ) ∧
      row.bmi = rec.bmi ∧
      row.blood_pressure_systolic = (rec.blood_pressure_systolic : ℤ) ∧
      row.blood_pressure_diastolic = (rec.blood_pressure_diastolic : ℤ) ∧
      row.heart_rate = (rec.heart_rate : ℤ) ∧
      parseListCell row.allergies = rec.allergies.map String.data ∧
      parseListCell row.chronic_diseases = rec.chronic_diseases.map String.data ∧
      parseListCell row.medications = rec.medications.map String.data)
      (generate_batch_data rs)
      (load_from_csv (save_csv_data (generate_batch_data rs))) := by
  apply csv_cells_round_trip
  · intro rec hrec
    obtain ⟨r, hr, rfl⟩ := List.mem_map.1 hrec
    obtain ⟨⟨_, hamem, _⟩, ⟨_, hcmem, _⟩, ⟨_, hmmem, _⟩, _, _⟩ := hwf r hr
    refine ⟨?_, ?_, ?_⟩
    · intro x hx
      exact allergies_pool_items x (hamem x hx)
    · intro x hx
      exact chronic_diseases_pool_items x (hcmem x hx)
    · intro x hx
      exact medications_pool_items x (hmmem x hx)
  · intro rec hrec
    obtain ⟨r, hr, rfl⟩ := List.mem_map.1 hrec
    show TwoDecimals (generate_record r).bmi
    apply twoDecimals_pyRound2
    apply div_nonneg
    · exact pyRoundTo_nonneg (hw r hr)
    · positivity

/-- C4 witness: the batch generated from `sampleRecordRand` round-trips
through the CSV cells. -/
theorem csv_round_trip_c4_witness :
    List.Forall₂ (fun (rec : AggregateRecord) (row : Row) =>
      row.age = (rec.age : ℤ) ∧
      row.bmi = rec.bmi ∧
      row.blood_pressure_systolic = (rec.blood_pressure_systolic : ℤ) ∧
      row.blood_pressure_diastolic = (rec.blood_pressure_diastolic : ℤ) ∧
      row.heart_rate = (rec.heart_rate : ℤ) ∧
      parseListCell row.allergies = rec.allergies.map String.data ∧
      parseListCell row.chronic_diseases = rec.chronic_diseases.map String.data ∧
      parseListCell row.medications = rec.medications.map String.data)
      (generate_batch_data [sampleRecordRand])
      (load_from_csv (save_csv_data (generate_batch_data [sampleRecordRand]))) :=
  csv_round_trip_c4 [sampleRecordRand]
    (by
      intro r h
      simp only [List.mem_singleton] at h
      subst h
      decide)
    (by
      intro r h
      simp only [List.mem_singleton] at h
      subst h
      show (0 : ℚ) ≤ 7005/100
      norm_num)

end HealthGen
